import Mathlib

/-
Verification development for the aieng-auth client-side OAuth 2.0 + PKCE core.
The definitions below are a shallow embedding of the TypeScript source:
pure functions become Lean functions, JavaScript exceptions become Option or
an explicit outcome type, the browser sessionStorage / localStorage media
become explicit association lists threaded through the operations, and the
global fetch is an explicit function parameter (transport failure = error).
Host-environment builtins (atob, JSON.parse, JSON.stringify, crypto) are
modelled as function parameters, since the core only consumes them.
Machine numbers are modelled as Int; NaN outcomes of JavaScript arithmetic
are modelled as the none case of Option Int.
-/

/-! Claim values of a decoded JWT payload.  A JavaScript value reaching the
token-validator code is a string, a number, a boolean, null, or an array of
audience strings.  Numeric coercion (JS subtraction) is modelled by toNumber,
where none stands for NaN; string-to-number coercion is modelled for
integer-formatted strings only, which is the only shape this codebase meets. -/

inductive ClaimValue where
  | str (s : String)
  | num (n : Int)
  | boolean (b : Bool)
  | arrStr (xs : List String)
  | jsNull
deriving DecidableEq, Repr

/-- Truthiness of a JavaScript value: 0, the empty string, false and null are
falsy; every other value of these shapes is truthy. -/
def ClaimValue.truthy : ClaimValue → Bool
  | .num n => n != 0
  | .str s => s != ""
  | .boolean b => b
  | .arrStr _ => true
  | .jsNull => false

/-- Numeric coercion of a JavaScript value, none standing for NaN. -/
def ClaimValue.toNumber : ClaimValue → Option Int
  | .num n => some n
  | .str s => if s = "" then some 0 else s.toInt?
  | .boolean b => some (if b then 1 else 0)
  | .jsNull => some 0
  | .arrStr _ => none

/-- Association-list access, modelling JavaScript object property lookup
(absent key = undefined = none). -/
def assocGet {α : Type} : List (String × α) → String → Option α
  | [], _ => none
  | (k2, v) :: rest, k => if k2 = k then some v else assocGet rest k

/-- Decoded JWT payload: an open-ended claims map, as produced by JSON.parse
of the payload segment. -/
structure DecodedToken where
  claims : List (String × ClaimValue)
deriving DecidableEq, Repr

/-- Host-environment builtins used by decodeToken: atob (throws on invalid
input, hence Option) and JSON.parse of the payload (throws on non-JSON,
hence Option). -/
structure JsEnv where
  atob : String → Option String
  jsonParse : String → Option DecodedToken

/-- Splitting a character list on a separator, with exactly the semantics of
the JavaScript String.prototype.split with a single-character separator:
the empty string splits to one empty part, and separators at the ends
produce empty parts. -/
def splitOnChar (sep : Char) : List Char → List (List Char)
  | [] => [[]]
  | c :: rest =>
    let r := splitOnChar sep rest
    if c = sep then [] :: r
    else
      match r with
      | [] => [[c]]
      | p :: ps => (c :: p) :: ps

/-- Embedding of decodeToken (token-validator): split on a dot, require
exactly 3 segments and a nonempty payload, undo base64url into base64,
atob, JSON.parse.  Every thrown error (wrapped by the source into an
invalid-token AuthError) is the none case. -/
def decodeToken (env : JsEnv) (token : String) : Option DecodedToken :=
  let parts := (splitOnChar '.' token.toList).map (fun cs => String.mk cs)
  if parts.length ≠ 3 then none
  else
    match parts.get? 1 with
    | none => none
    | some payload =>
      if payload = "" then none
      else
        let base64 := String.mk (payload.toList.map
          (fun c => if c = '-' then '+' else if c = '_' then '/' else c))
        match env.atob base64 with
        | none => none
        | some jsonPayload => env.jsonParse jsonPayload

/-- Argument of the validator functions, which accept a raw JWT string or an
already-decoded payload. -/
inductive TokenInput where
  | raw (s : String)
  | decoded (d : DecodedToken)

/-- The branch typeof token === string of the validator functions: decode a
raw string, pass a decoded payload through. -/
def decodeInput (env : JsEnv) : TokenInput → Option DecodedToken
  | .raw s => decodeToken env s
  | .decoded d => some d

/-- Embedding of isTokenExpired: decode failure gives true (catch branch);
a missing or falsy exp claim gives true; otherwise the source computes
now >= exp - bufferSeconds, where a NaN comparison is false. -/
def isTokenExpired (env : JsEnv) (now : Int) (token : TokenInput)
    (bufferSeconds : Int) : Bool :=
  match decodeInput env token with
  | none => true
  | some d =>
    match assocGet d.claims "exp" with
    | none => true
    | some v =>
      if v.truthy = false then true
      else
        match v.toNumber with
        | some e => decide (now ≥ e - bufferSeconds)
        | none => false

/-- Embedding of getTokenExpiration: the value of decoded.exp when truthy,
null (none) otherwise; none as well on decode failure. -/
def getTokenExpiration (env : JsEnv) (token : TokenInput) : Option ClaimValue :=
  match decodeInput env token with
  | none => none
  | some d =>
    match assocGet d.claims "exp" with
    | none => none
    | some v => if v.truthy then some v else none

/-- Embedding of getTimeUntilExpiration: 0 on decode failure or missing or
falsy exp, else Math.max(0, exp - now); none models the NaN outcome of a
non-numeric truthy exp claim. -/
def getTimeUntilExpiration (env : JsEnv) (now : Int) (token : TokenInput) :
    Option Int :=
  match decodeInput env token with
  | none => some 0
  | some d =>
    match assocGet d.claims "exp" with
    | none => some 0
    | some v =>
      if v.truthy = false then some 0
      else
        match v.toNumber with
        | some e => some (max 0 (e - now))
        | none => none

/-- Options of validateToken; an undefined field and an explicitly falsy
field are not distinguished where the source only tests truthiness. -/
structure ValidateOptions where
  checkExpiration : Bool
  requiredClaims : Option (List String)
  issuer : Option String
  audience : Option String

/-- Empty options object of validateToken. -/
def emptyValidateOptions : ValidateOptions :=
  { checkExpiration := false, requiredClaims := none,
    issuer := none, audience := none }

/-- Audience membership test of validateToken: an array audience claim is
searched elementwise, a plain value is treated as a singleton, and only a
string element can strictly equal the expected audience string. -/
def audIncludes (aud : Option ClaimValue) (expected : String) : Bool :=
  match aud with
  | some (.arrStr xs) => xs.contains expected
  | some (.str s) => s == expected
  | some _ => false
  | none => false

/-- Embedding of validateToken: decode once, then short-circuit through the
expiration check (only when requested), required-claims presence, issuer
equality and audience membership; any decode failure gives false. -/
def validateToken (env : JsEnv) (now : Int) (token : String)
    (options : ValidateOptions) : Bool :=
  match decodeToken env token with
  | none => false
  | some d =>
    let expFail : Bool :=
      options.checkExpiration && isTokenExpired env now (TokenInput.decoded d) 0
    let claimsFail : Bool :=
      match options.requiredClaims with
      | some cs => cs.any (fun c => (assocGet d.claims c).isNone)
      | none => false
    let issuerFail : Bool :=
      match options.issuer with
      | some s => (s != "") && !(assocGet d.claims "iss" == some (.str s))
      | none => false
    let audienceFail : Bool :=
      match options.audience with
      | some a => (a != "") && !(audIncludes (assocGet d.claims "aud") a)
      | none => false
    if expFail then false
    else if claimsFail then false
    else if issuerFail then false
    else if audienceFail then false
    else true

example : isTokenExpired ⟨fun s => some s, fun _ => none⟩ 100
    (TokenInput.decoded ⟨[("exp", ClaimValue.num 50)]⟩) 0 = true := by decide

example : isTokenExpired ⟨fun s => some s, fun _ => none⟩ 100
    (TokenInput.decoded ⟨[("exp", ClaimValue.num 160)]⟩) 0 = false := by decide

example : isTokenExpired ⟨fun s => some s, fun _ => none⟩ 100
    (TokenInput.decoded ⟨[("exp", ClaimValue.num 160)]⟩) 70 = true := by decide

example : decodeToken ⟨fun s => some s, fun s => if s = "pay" then some ⟨[("exp", ClaimValue.num 1)]⟩ else none⟩
    "head.pay.sig" = some ⟨[("exp", ClaimValue.num 1)]⟩ := by decide

example : validateToken ⟨fun s => some s, fun s => if s = "pay" then some ⟨[("exp", ClaimValue.num 1)]⟩ else none⟩
    999 "head.pay.sig" emptyValidateOptions = true := by decide

/-! Token record and the three token-storage variants.  JavaScript object
aliasing is made explicit with a small heap: getTokens hands the caller a
reference to a freshly allocated object, and mutating through that reference
is heap assignment.  The sessionStorage and localStorage media are
association lists from keys to strings; the JSON codec used by the web
adapters is a parameter pair (stringify, parse). -/

/-- AuthTokens record of the core types.  The undefined value of an optional
field is none.  The required string and number fields accessToken and
expiresIn conflate a runtime-undefined with the empty string and with 0;
every use in the codebase only tests their truthiness, where the two are
indistinguishable. -/
structure AuthTokens where
  accessToken : String
  refreshToken : Option String
  idToken : Option String
  tokenType : String
  expiresIn : Int
  scope : Option String
  issuedAt : Option Int
deriving DecidableEq, Repr

/-- Heap of JavaScript token objects; a reference is an index, allocation
appends. -/
abbrev Heap := List AuthTokens

/-- References into the heap. -/
abbrev Ref := Nat

/-- Allocation of a fresh object. -/
def heapAlloc (h : Heap) (t : AuthTokens) : Ref × Heap := (h.length, h ++ [t])

/-- Dereference. -/
def heapGet (h : Heap) (r : Ref) : Option AuthTokens := h.get? r

/-- In-place mutation of the object behind a reference. -/
def heapSet (h : Heap) (r : Ref) (t : AuthTokens) : Heap := h.set r t

/-- Key-value storage medium (sessionStorage, localStorage): getItem yields
null (none) for an absent key. -/
abbrev Medium := List (String × String)

/-- Embedding of Storage.getItem. -/
def mediumGet : Medium → String → Option String
  | [], _ => none
  | (k2, v) :: rest, k => if k2 = k then some v else mediumGet rest k

/-- Embedding of Storage.removeItem. -/
def mediumRemove : Medium → String → Medium
  | [], _ => []
  | (k2, v) :: rest, k =>
    if k2 = k then mediumRemove rest k else (k2, v) :: mediumRemove rest k

/-- Embedding of Storage.setItem. -/
def mediumSet (m : Medium) (k v : String) : Medium := mediumRemove m k ++ [(k, v)]

/-- JSON codec used by the web storage adapters: JSON.stringify of a token
record and JSON.parse of stored content (which throws, hence Option, on
corrupted content). -/
structure JsonCodec where
  stringify : AuthTokens → String
  parse : String → Option AuthTokens

/-- Storage key constant of the token-storage module. -/
def STORAGE_KEY : String := "cyberark_auth_tokens"

/-- Embedding of MemoryTokenStorage.setTokens: this.tokens becomes a fresh
object spreading the input with issuedAt stamped to the current time. -/
def memSetTokens (h : Heap) (now : Int) (t : AuthTokens) : Heap × Option Ref :=
  let (r, h1) := heapAlloc h { t with issuedAt := some now }
  (h1, some r)

/-- Embedding of MemoryTokenStorage.getTokens: null when nothing is stored,
else a fresh shallow copy of the stored object. -/
def memGetTokens (h : Heap) (st : Option Ref) : Heap × Option Ref :=
  match st with
  | none => (h, none)
  | some r =>
    match heapGet h r with
    | none => (h, none)
    | some t =>
      let (r2, h1) := heapAlloc h t
      (h1, some r2)

/-- Embedding of MemoryTokenStorage.clearTokens. -/
def memClearTokens : Option Ref := none

/-- Value a caller reads from MemoryTokenStorage.getTokens. -/
def memObserve (h : Heap) (st : Option Ref) : Option AuthTokens :=
  let (h1, r) := memGetTokens h st
  r.bind (heapGet h1)

/-- Embedding of the setTokens of the web storage adapters (SessionStorage
and LocalStorage are textually identical in the source): serialize the
input spread with a stamped issuedAt and setItem it under the configured
key.  Exceptions of the underlying medium (wrapped into storage errors by
the source) are outside this model; the medium here never throws. -/
def webSetTokens (codec : JsonCodec) (key : String) (m : Medium) (now : Int)
    (t : AuthTokens) : Medium :=
  mediumSet m key (codec.stringify { t with issuedAt := some now })

/-- Embedding of the getTokens of the web storage adapters: a missing or
empty entry gives null; parse failure clears the corrupted entry and gives
null; success allocates the freshly parsed object. -/
def webGetTokens (codec : JsonCodec) (key : String) (h : Heap) (m : Medium) :
    Heap × Medium × Option Ref :=
  match mediumGet m key with
  | none => (h, m, none)
  | some s =>
    if s = "" then (h, m, none)
    else
      match codec.parse s with
      | some t =>
        let (r, h1) := heapAlloc h t
        (h1, m, some r)
      | none => (h, mediumRemove m key, none)

/-- Embedding of the clearTokens of the web storage adapters. -/
def webClearTokens (key : String) (m : Medium) : Medium := mediumRemove m key

/-- Value a caller reads from the getTokens of a web storage adapter. -/
def webObserve (codec : JsonCodec) (key : String) (h : Heap) (m : Medium) :
    Option AuthTokens :=
  match webGetTokens codec key h m with
  | (h1, _, r) => r.bind (heapGet h1)

/-- SessionStorageAdapter.setTokens. -/
def sessionSetTokens (codec : JsonCodec) (key : String) (m : Medium)
    (now : Int) (t : AuthTokens) : Medium := webSetTokens codec key m now t

/-- SessionStorageAdapter.getTokens. -/
def sessionGetTokens (codec : JsonCodec) (key : String) (h : Heap)
    (m : Medium) : Heap × Medium × Option Ref := webGetTokens codec key h m

/-- LocalStorageAdapter.setTokens. -/
def localSetTokens (codec : JsonCodec) (key : String) (m : Medium)
    (now : Int) (t : AuthTokens) : Medium := webSetTokens codec key m now t

/-- LocalStorageAdapter.getTokens. -/
def localGetTokens (codec : JsonCodec) (key : String) (h : Heap)
    (m : Medium) : Heap × Medium × Option Ref := webGetTokens codec key h m

/-! TokenManager.  The manager is a thin facade over one storage instance;
its derived accessors are functions of the token record its storage
currently yields (Option AuthTokens) together with the decode environment
and the current time. -/

/-- Embedding of TokenManager.getAccessToken: tokens?.accessToken || null. -/
def managerGetAccessToken (st : Option AuthTokens) : Option String :=
  match st with
  | none => none
  | some t => if t.accessToken = "" then none else some t.accessToken

/-- Embedding of TokenManager.getTimeUntilExpiration: 0 without an access
token, else the validator on the raw access token string. -/
def managerGetTimeUntilExpiration (env : JsEnv) (now : Int)
    (st : Option AuthTokens) : Option Int :=
  match managerGetAccessToken st with
  | none => some 0
  | some tok => getTimeUntilExpiration env now (TokenInput.raw tok)

/-- Embedding of TokenManager.shouldRefresh:
timeRemaining > 0 && timeRemaining <= bufferSeconds, where a NaN
timeRemaining fails the first comparison. -/
def managerShouldRefresh (env : JsEnv) (now : Int) (st : Option AuthTokens)
    (bufferSeconds : Int) : Bool :=
  match managerGetTimeUntilExpiration env now st with
  | some t => decide (t > 0) && decide (t ≤ bufferSeconds)
  | none => false

/-- TokenManager.shouldRefresh with its default buffer argument of 300. -/
def managerShouldRefreshDefault (env : JsEnv) (now : Int)
    (st : Option AuthTokens) : Bool :=
  managerShouldRefresh env now st 300

/-! PKCE generator.  Bytes are naturals below 256; the secure random source
and the SHA-256 primitive are parameters, since the source consumes them
from the host crypto object. -/

/-- Standard base64 alphabet. -/
def base64Alphabet : List Char :=
  "ABCDEFGHIJKLMNOPQRSTUVWXYZabcdefghijklmnopqrstuvwxyz0123456789+/".toList

/-- Character of a 6-bit group. -/
def b64Char (n : Nat) : Char := base64Alphabet.getD n 'A'

/-- Standard base64 encoding, three input bytes to four output characters,
with = padding on a final partial chunk, as produced by Buffer.toString or
btoa in base64UrlEncode. -/
def base64Chunks : List Nat → List Char
  | b1 :: b2 :: b3 :: rest =>
    b64Char (b1 / 4) :: b64Char (b1 % 4 * 16 + b2 / 16) ::
    b64Char (b2 % 16 * 4 + b3 / 64) :: b64Char (b3 % 64) :: base64Chunks rest
  | [b1, b2] =>
    [b64Char (b1 / 4), b64Char (b1 % 4 * 16 + b2 / 16), b64Char (b2 % 16 * 4), '=']
  | [b1] => [b64Char (b1 / 4), b64Char (b1 % 4 * 16), '=', '=']
  | [] => []

/-- URL-safe rewriting of base64UrlEncode: plus to minus, slash to
underscore, padding stripped. -/
def urlSafeChars (cs : List Char) : List Char :=
  cs.filterMap (fun c =>
    if c = '=' then none
    else if c = '+' then some '-'
    else if c = '/' then some '_'
    else some c)

/-- Embedding of base64UrlEncode over the raw bytes of the buffer. -/
def base64UrlEncode (bytes : List Nat) : String :=
  String.mk (urlSafeChars (base64Chunks bytes))

/-- Embedding of generateRandomString: the secure random source fills the
requested number of bytes (passed here as the drawn bytes themselves) and
the result is their URL-safe base64 encoding. -/
def generateRandomString (randomBytes : List Nat) : String :=
  base64UrlEncode randomBytes

/-- PKCE challenge record. -/
structure PKCEChallenge where
  verifier : String
  challenge : String
  method : String
deriving DecidableEq, Repr

/-- Embedding of generatePKCE: the verifier is generateRandomString on 128
random bytes, the challenge is the URL-safe base64 of the SHA-256 digest of
the verifier, the method is S256.  The random bytes and the digest function
are parameters for the host crypto primitives; the caller of the claim
theorems constrains the byte count to 128 as in the source. -/
def generatePKCE (randomBytes : List Nat) (sha256 : String → List Nat) :
    PKCEChallenge :=
  let verifier := generateRandomString randomBytes
  { verifier := verifier,
    challenge := base64UrlEncode (sha256 verifier),
    method := "S256" }

/-! OAuth client.  The fetch global is a parameter; a transport failure is
the error case of Except and carries an opaque message.  A response body is
the claim-value map its json method yields, or none when json rejects. -/

/-- Error codes of the auth-errors module. -/
inductive AuthErrorCode where
  | AUTH_FAILED
  | INVALID_STATE
  | PKCE_ERROR
  | TOKEN_REFRESH_FAILED
  | USER_FETCH_ERROR
  | NETWORK_ERROR
  | INVALID_TOKEN
  | STORAGE_ERROR
  | TOKEN_EXPIRED
  | INVALID_CONFIG
  | CALLBACK_ERROR
  | UNKNOWN_ERROR
deriving DecidableEq, Repr

/-- Typed error raised by the protocol operations. -/
structure AuthError where
  code : AuthErrorCode
  message : String
deriving DecidableEq, Repr

/-- HTTP request as assembled by the client: URL, method, URL-encoded form
entries, and an optional bearer token header. -/
structure HttpRequest where
  url : String
  method : String
  body : List (String × String)
  bearer : Option String
deriving DecidableEq, Repr

/-- HTTP response: the ok flag (2xx), the status text, and the JSON body
(none when response.json() rejects). -/
structure HttpResponse where
  ok : Bool
  statusText : String
  body : Option (List (String × ClaimValue))
deriving DecidableEq, Repr

/-- The fetch global: a request either resolves to a response or rejects
with a transport failure carrying an opaque message. -/
abbrev Fetch := HttpRequest → Except String HttpResponse

/-- Result of an async client operation: normal return, a thrown typed
AuthError, or a foreign JavaScript exception (such as a rejected fetch)
propagating uncaught. -/
inductive JsOutcome (α : Type) where
  | ok (a : α)
  | authErr (e : AuthError)
  | jsErr (msg : String)
deriving DecidableEq, Repr

/-- String field of a JSON body; a missing key or a non-string value is
undefined for the string uses of this codebase. -/
def getStr (m : List (String × ClaimValue)) (k : String) : Option String :=
  match assocGet m k with
  | some (.str s) => some s
  | _ => none

/-- Numeric field of a JSON body. -/
def getNum (m : List (String × ClaimValue)) (k : String) : Option Int :=
  match assocGet m k with
  | some (.num n) => some n
  | _ => none

/-- The JavaScript or-else idiom v || d on strings: the default replaces an
undefined or empty (falsy) value. -/
def jsStrOr (v : Option String) (d : String) : String :=
  match v with
  | some s => if s = "" then d else s
  | none => d

/-- Truthiness of an optional string, as tested by the callback parameter
checks: an absent parameter and an empty string are both falsy. -/
def jsTruthyStr : Option String → Bool
  | none => false
  | some s => s != ""

/-- Google endpoint constants of the client module. -/
def GOOGLE_AUTH_ENDPOINT : String := "https://accounts.google.com/o/oauth2/v2/auth"

/-- Token endpoint constant. -/
def GOOGLE_TOKEN_ENDPOINT : String := "https://oauth2.googleapis.com/token"

/-- Revoke endpoint constant. -/
def GOOGLE_REVOKE_ENDPOINT : String := "https://oauth2.googleapis.com/revoke"

/-- Userinfo endpoint constant. -/
def GOOGLE_USERINFO_ENDPOINT : String := "https://www.googleapis.com/oauth2/v2/userinfo"

/-- Client configuration fields consumed by the modelled operations. -/
structure AuthConfig where
  clientId : String
  clientSecret : String
  redirectUri : String
  scopes : Option (List String)
  allowedDomains : Option (List String)

/-- Normalized user shape returned by getUserInfo. -/
structure User where
  sub : Option String
  email : Option String
  name : Option String
  givenName : Option String
  familyName : Option String
  picture : Option String
  emailVerified : Option Bool
  locale : Option String
deriving DecidableEq, Repr

/-- Boolean field of a JSON body. -/
def getBool (m : List (String × ClaimValue)) (k : String) : Option Bool :=
  match assocGet m k with
  | some (.boolean b) => some b
  | _ => none

/-- Embedding of exchangeCodeForTokens: POST the grant to the token
endpoint; a non-2xx response throws auth-failed with the parsed error
description or the status text; a 2xx response is mapped onto AuthTokens
with token type defaulting to Bearer.  The second component collects the
HTTP requests performed. -/
def exchangeCodeForTokens (cfg : AuthConfig) (f : Fetch)
    (code verifier : String) : JsOutcome AuthTokens × List HttpRequest :=
  let req : HttpRequest :=
    { url := GOOGLE_TOKEN_ENDPOINT, method := "POST",
      body := [("grant_type", "authorization_code"), ("code", code),
               ("redirect_uri", cfg.redirectUri), ("client_id", cfg.clientId),
               ("client_secret", cfg.clientSecret), ("code_verifier", verifier)],
      bearer := none }
  match f req with
  | .error e => (.jsErr e, [req])
  | .ok resp =>
    if resp.ok = false then
      let errorData := resp.body.getD []
      (.authErr { code := .AUTH_FAILED,
                  message := jsStrOr (getStr errorData "error_description")
                    ("Token request failed: " ++ resp.statusText) }, [req])
    else
      match resp.body with
      | none => (.jsErr "response.json rejected", [req])
      | some data =>
        (.ok { accessToken := (getStr data "access_token").getD "",
               refreshToken := getStr data "refresh_token",
               idToken := none,
               tokenType := jsStrOr (getStr data "token_type") "Bearer",
               expiresIn := (getNum data "expires_in").getD 0,
               scope := getStr data "scope",
               issuedAt := none }, [req])

/-- Embedding of refreshTokens: an empty (falsy) refresh token throws
token-refresh-failed before any network activity; otherwise POST the
refresh grant, throw token-refresh-failed on non-2xx with the same
description-or-status-text fallback, and on success keep the old refresh
token whenever the response carries no truthy refresh_token. -/
def refreshTokens (cfg : AuthConfig) (f : Fetch) (refreshToken : String) :
    JsOutcome AuthTokens × List HttpRequest :=
  if refreshToken = "" then
    (.authErr { code := .TOKEN_REFRESH_FAILED,
                message := "No refresh token available" }, [])
  else
    let req : HttpRequest :=
      { url := GOOGLE_TOKEN_ENDPOINT, method := "POST",
        body := [("grant_type", "refresh_token"),
                 ("refresh_token", refreshToken),
                 ("client_id", cfg.clientId),
                 ("client_secret", cfg.clientSecret)],
        bearer := none }
    match f req with
    | .error e => (.jsErr e, [req])
    | .ok resp =>
      if resp.ok = false then
        let errorData := resp.body.getD []
        (.authErr { code := .TOKEN_REFRESH_FAILED,
                    message := jsStrOr (getStr errorData "error_description")
                      ("Token refresh failed: " ++ resp.statusText) }, [req])
      else
        match resp.body with
        | none => (.jsErr "response.json rejected", [req])
        | some data =>
          (.ok { accessToken := (getStr data "access_token").getD "",
                 refreshToken :=
                   some (jsStrOr (getStr data "refresh_token") refreshToken),
                 idToken := none,
                 tokenType := jsStrOr (getStr data "token_type") "Bearer",
                 expiresIn := (getNum data "expires_in").getD 0,
                 scope := getStr data "scope",
                 issuedAt := none }, [req])

/-- Embedding of getUserInfo: GET the userinfo endpoint with bearer auth;
non-2xx throws user-fetch-error; success maps the Google profile fields
onto the normalized user shape. -/
def getUserInfo (f : Fetch) (accessToken : String) :
    JsOutcome User × List HttpRequest :=
  let req : HttpRequest :=
    { url := GOOGLE_USERINFO_ENDPOINT, method := "GET", body := [],
      bearer := some accessToken }
  match f req with
  | .error e => (.jsErr e, [req])
  | .ok resp =>
    if resp.ok = false then
      (.authErr { code := .USER_FETCH_ERROR,
                  message := "Failed to fetch user info: " ++ resp.statusText },
       [req])
    else
      match resp.body with
      | none => (.jsErr "response.json rejected", [req])
      | some data =>
        (.ok { sub := getStr data "id",
               email := getStr data "email",
               name := getStr data "name",
               givenName := getStr data "given_name",
               familyName := getStr data "family_name",
               picture := getStr data "picture",
               emailVerified := getBool data "verified_email",
               locale := getStr data "locale" }, [req])

/-- Embedding of validateEmailDomain: fetch the profile, require a truthy
email, take the segment after the first at sign (the JavaScript split
index 1), require it truthy, and require membership in the configured
allow-list. -/
def validateEmailDomain (cfg : AuthConfig) (f : Fetch) (accessToken : String) :
    JsOutcome Unit × List HttpRequest :=
  match getUserInfo f accessToken with
  | (.jsErr e, reqs) => (.jsErr e, reqs)
  | (.authErr e, reqs) => (.authErr e, reqs)
  | (.ok user, reqs) =>
    if jsTruthyStr user.email = false then
      (.authErr { code := .AUTH_FAILED, message := "Email not available" }, reqs)
    else
      let email := user.email.getD ""
      let domain := (splitOnChar '@' email.toList).map (fun cs => String.mk cs)
        |>.get? 1
      if jsTruthyStr domain = false then
        (.authErr { code := .AUTH_FAILED, message := "Invalid email format" },
         reqs)
      else
        let allowedDomains := cfg.allowedDomains.getD []
        if allowedDomains.contains (domain.getD "") = false then
          (.authErr { code := .AUTH_FAILED,
                      message := "Email domain " ++ domain.getD "" ++
                        " is not allowed. Only " ++
                        String.intercalate ", " allowedDomains ++
                        " are permitted." }, reqs)
        else
          (.ok (), reqs)

/-- Embedding of revokeToken: POST the token to the revoke endpoint; the
response is not inspected at all, but a rejected fetch propagates. -/
def revokeToken (f : Fetch) (token : String) :
    JsOutcome Unit × List HttpRequest :=
  let req : HttpRequest :=
    { url := GOOGLE_REVOKE_ENDPOINT, method := "POST",
      body := [("token", token)], bearer := none }
  match f req with
  | .error e => (.jsErr e, [req])
  | .ok _ => (.ok (), [req])

/-- Query parameters of the callback URL, as read off its search params by
handleCallback; an absent parameter is none and URLSearchParams.get yields
the empty string for a valueless parameter. -/
structure CallbackParams where
  code : Option String
  state : Option String
  error : Option String
deriving DecidableEq, Repr

/-- The state validation condition of handleCallback, literally
not state, or state strictly unequal to the stored value (which is null
when the key is absent). -/
def stateMismatch (state stored : Option String) : Bool :=
  match state with
  | none => true
  | some s => s == "" || !(stored == some s)

/-- Truthy length test of the allowed-domains guard in handleCallback. -/
def allowedDomainsConfigured (cfg : AuthConfig) : Bool :=
  match cfg.allowedDomains with
  | some l => decide (0 < l.length)
  | none => false

/-- Embedding of handleCallback over the callback query parameters and the
transient session medium: surface a provider error, validate the state
nonce against sessionStorage, require a code and a stored PKCE verifier,
exchange the code, enforce the domain allow-list when configured, and only
on full success delete both transient entries.  The components are the
outcome, the session medium after the call, and the HTTP requests made. -/
def handleCallback (cfg : AuthConfig) (f : Fetch) (p : CallbackParams)
    (ss : Medium) : JsOutcome AuthTokens × Medium × List HttpRequest :=
  if jsTruthyStr p.error then
    (.authErr { code := .AUTH_FAILED,
                message := "Google authorization failed: " ++ p.error.getD "" },
     ss, [])
  else
    let storedState := mediumGet ss "oauth_state"
    if stateMismatch p.state storedState then
      (.authErr { code := .INVALID_STATE, message := "Invalid state parameter" },
       ss, [])
    else if jsTruthyStr p.code = false then
      (.authErr { code := .AUTH_FAILED,
                  message := "No authorization code received" }, ss, [])
    else
      let verifier := mediumGet ss "pkce_verifier"
      if jsTruthyStr verifier = false then
        (.authErr { code := .PKCE_ERROR, message := "PKCE verifier not found" },
         ss, [])
      else
        match exchangeCodeForTokens cfg f (p.code.getD "") (verifier.getD "") with
        | (.jsErr e, reqs) => (.jsErr e, ss, reqs)
        | (.authErr e, reqs) => (.authErr e, ss, reqs)
        | (.ok tokens, reqs) =>
          if allowedDomainsConfigured cfg then
            match validateEmailDomain cfg f tokens.accessToken with
            | (.jsErr e, reqs2) => (.jsErr e, ss, reqs ++ reqs2)
            | (.authErr e, reqs2) => (.authErr e, ss, reqs ++ reqs2)
            | (.ok _, reqs2) =>
              (.ok tokens,
               mediumRemove (mediumRemove ss "pkce_verifier") "oauth_state",
               reqs ++ reqs2)
          else
            (.ok tokens,
             mediumRemove (mediumRemove ss "pkce_verifier") "oauth_state",
             reqs)

/-! Supporting lemmas about the heap, the storage medium and base64. -/

theorem heapGet_alloc_self (h : Heap) (t : AuthTokens) :
    heapGet (h ++ [t]) h.length = some t := by
  induction h with
  | nil => rfl
  | cons a as ih => simp [heapGet, List.get?] at ih ⊢

theorem heapGet_alloc_lt (h : Heap) (t : AuthTokens) (r : Nat)
    (hr : r < h.length) : heapGet (h ++ [t]) r = heapGet h r := by
  induction h generalizing r with
  | nil => simp at hr
  | cons a as ih =>
    cases r with
    | zero => rfl
    | succ n =>
      have : n < as.length := by simpa using hr
      simpa [heapGet, List.get?] using ih n this

theorem heapGet_set_ne (h : Heap) (i j : Nat) (x : AuthTokens) (hne : i ≠ j) :
    heapGet (heapSet h j x) i = heapGet h i := by
  induction h generalizing i j with
  | nil => rfl
  | cons a as ih =>
    cases j with
    | zero =>
      cases i with
      | zero => exact absurd rfl hne
      | succ n => rfl
    | succ m =>
      cases i with
      | zero => rfl
      | succ n =>
        have hne2 : n ≠ m := fun hh => hne (by rw [hh])
        simpa [heapGet, heapSet, List.get?] using ih n m hne2

theorem mediumGet_remove_self (m : Medium) (k : String) :
    mediumGet (mediumRemove m k) k = none := by
  induction m with
  | nil => rfl
  | cons p rest ih =>
    obtain ⟨k2, v⟩ := p
    by_cases hk : k2 = k
    · simpa [mediumRemove, hk] using ih
    · simpa [mediumRemove, mediumGet, hk] using ih

theorem mediumGet_append_none (l1 l2 : Medium) (k : String)
    (h : mediumGet l1 k = none) :
    mediumGet (l1 ++ l2) k = mediumGet l2 k := by
  induction l1 with
  | nil => rfl
  | cons p rest ih =>
    obtain ⟨k2, v⟩ := p
    by_cases hk : k2 = k
    · simp [mediumGet, hk] at h
    · rw [List.cons_append]
      rw [show mediumGet ((k2, v) :: rest) k = mediumGet rest k from by
        simp [mediumGet, hk]] at h
      rw [show mediumGet ((k2, v) :: (rest ++ l2)) k = mediumGet (rest ++ l2) k from by
        simp [mediumGet, hk]]
      exact ih h

theorem mediumGet_set_self (m : Medium) (k v : String) :
    mediumGet (mediumSet m k v) k = some v := by
  unfold mediumSet
  rw [mediumGet_append_none _ _ _ (mediumGet_remove_self m k)]
  simp [mediumGet]

theorem b64Char_ne_pad (n : Nat) : b64Char n ≠ '=' := by
  unfold b64Char
  by_cases hn : n < base64Alphabet.length
  · rw [List.getD_eq_getElem _ _ hn]
    have hm : base64Alphabet[n] ∈ base64Alphabet := List.getElem_mem hn
    have hnp : ('=' ∈ base64Alphabet) = False := by decide
    intro heq
    rw [heq] at hm
    rw [hnp] at hm
    exact hm
  · have hle : base64Alphabet.length ≤ n := Nat.le_of_not_lt hn
    rw [List.getD_eq_default _ _ hle]
    decide

theorem urlSafeChars_cons_len (c : Char) (cs : List Char) (hc : c ≠ '=') :
    (urlSafeChars (c :: cs)).length = (urlSafeChars cs).length + 1 := by
  by_cases h1 : c = '+'
  · simp [urlSafeChars, List.filterMap_cons, h1]
  · by_cases h2 : c = '/'
    · simp [urlSafeChars, List.filterMap_cons, h1, h2]
    · simp [urlSafeChars, List.filterMap_cons, hc, h1, h2]

theorem urlSafeChars_pad_len (cs : List Char) :
    (urlSafeChars ('=' :: cs)).length = (urlSafeChars cs).length := by
  simp [urlSafeChars, List.filterMap_cons]

theorem base64UrlEncode_length (bs : List Nat) :
    (base64UrlEncode bs).length =
      4 * (bs.length / 3) +
        (if bs.length % 3 = 0 then 0 else if bs.length % 3 = 1 then 2 else 3) := by
  show (urlSafeChars (base64Chunks bs)).length = _
  induction bs using base64Chunks.induct with
  | case1 b1 b2 b3 rest ih =>
    rw [base64Chunks]
    rw [urlSafeChars_cons_len _ _ (b64Char_ne_pad _),
        urlSafeChars_cons_len _ _ (b64Char_ne_pad _),
        urlSafeChars_cons_len _ _ (b64Char_ne_pad _),
        urlSafeChars_cons_len _ _ (b64Char_ne_pad _), ih]
    simp only [List.length_cons]
    have hmod : (rest.length + 1 + 1 + 1) % 3 = rest.length % 3 := by omega
    have hdiv : (rest.length + 1 + 1 + 1) / 3 = rest.length / 3 + 1 := by omega
    simp only [hmod, hdiv]
    omega
  | case2 b1 b2 =>
    rw [base64Chunks]
    rw [urlSafeChars_cons_len _ _ (b64Char_ne_pad _),
        urlSafeChars_cons_len _ _ (b64Char_ne_pad _),
        urlSafeChars_cons_len _ _ (b64Char_ne_pad _),
        urlSafeChars_pad_len]
    simp [urlSafeChars]
  | case3 b1 =>
    rw [base64Chunks]
    rw [urlSafeChars_cons_len _ _ (b64Char_ne_pad _),
        urlSafeChars_cons_len _ _ (b64Char_ne_pad _),
        urlSafeChars_pad_len, urlSafeChars_pad_len]
    simp [urlSafeChars]
  | case4 => rfl

/-! Shared concrete sample values used by the witnesses. -/

/-- Decode environment whose JSON parser recognizes the payload string
payload as a claims map carrying an exp of 1 (a long-past instant). -/
def sampleEnv : JsEnv where
  atob := fun s => some s
  jsonParse := fun s =>
    if s = "payload" then some { claims := [("exp", ClaimValue.num 1)] }
    else none

/-- Sample client configuration. -/
def sampleConfig : AuthConfig :=
  { clientId := "test-client-id", clientSecret := "test-client-secret",
    redirectUri := "http://localhost:3000/callback",
    scopes := some ["openid", "profile", "email"], allowedDomains := none }

/-- Sample token record with a caller-supplied issuedAt that a store must
overwrite. -/
def sampleTokens : AuthTokens :=
  { accessToken := "access-1", refreshToken := some "refresh-1",
    idToken := none, tokenType := "Bearer", expiresIn := 3600,
    scope := some "openid", issuedAt := some 1 }

/-! Claim theorems. -/

/-- C1 counterexample: with a fetch whose promise rejects (a transport
failure), revokeToken does not return normally: the rejection propagates.
This refutes the claim that revokeToken never raises regardless of any
transport failure of the underlying HTTP call. -/
theorem revokeToken_transport_failure_raises_cex :
    (revokeToken (fun _ => Except.error "network failure") "token-to-revoke").1 ≠
      JsOutcome.ok () := by decide

/-- C1 (amended): revokeToken POSTs the token to the revoke endpoint and,
whenever the fetch resolves, returns normally no matter what the response
status or body is; a rejected fetch, however, propagates out of
revokeToken. -/
theorem revokeToken_ignores_response_status (token : String)
    (resp : HttpResponse) (e : String) (f : Fetch) :
    revokeToken (fun _ => Except.ok resp) token =
      (JsOutcome.ok (),
       [{ url := GOOGLE_REVOKE_ENDPOINT, method := "POST",
          body := [("token", token)], bearer := none }]) ∧
    (revokeToken (fun _ => Except.error e) token).1 = JsOutcome.jsErr e ∧
    (revokeToken f token).2 =
      [{ url := GOOGLE_REVOKE_ENDPOINT, method := "POST",
         body := [("token", token)], bearer := none }] := by
  refine ⟨rfl, rfl, ?_⟩
  unfold revokeToken
  dsimp only
  split <;> rfl

/-- C4: refreshTokens with an empty refresh token fails immediately with a
token-refresh-failed error and performs no HTTP request at all, whatever
the fetch implementation and configuration are. -/
theorem refreshTokens_empty_input_no_network (cfg : AuthConfig) (f : Fetch) :
    refreshTokens cfg f "" =
      (JsOutcome.authErr { code := AuthErrorCode.TOKEN_REFRESH_FAILED,
                           message := "No refresh token available" }, []) := by
  unfold refreshTokens
  simp

/-- C8: evaluating the PKCE generator on a concrete 128-byte random draw
(the byte count hard-coded by generatePKCE), the produced verifier has 171
characters, which meets the RFC 7636 lower bound of 43 but violates its
upper bound of 128; so the verifier length does not lie within the 43 to
128 range the specification asserts. -/
theorem generatePKCE_verifier_exceeds_rfc_length :
    (generatePKCE (List.replicate 128 0) (fun _ => [])).verifier.length = 171 ∧
    43 ≤ (generatePKCE (List.replicate 128 0) (fun _ => [])).verifier.length ∧
    ¬ ((generatePKCE (List.replicate 128 0) (fun _ => [])).verifier.length ≤ 128) := by
  have hv : (generatePKCE (List.replicate 128 0) (fun _ => [])).verifier =
      base64UrlEncode (List.replicate 128 0) := rfl
  have h : (base64UrlEncode (List.replicate 128 (0 : Nat))).length = 171 := by
    rw [base64UrlEncode_length]
    simp
  refine ⟨by rw [hv]; exact h, by rw [hv, h]; omega, by rw [hv, h]; omega⟩

/-- C10: whenever an input decodes to a payload whose exp claim is present
with value 0, getTokenExpiration yields null (the claim is treated as
absent, not as the number 0) and isTokenExpired reports the token as
expired through its no-expiration branch, for every buffer. -/
theorem exp_zero_treated_absent (env : JsEnv) (now : Int) (token : TokenInput)
    (B : Int) (d : DecodedToken)
    (hd : decodeInput env token = some d)
    (hexp : assocGet d.claims "exp" = some (ClaimValue.num 0)) :
    getTokenExpiration env token = none ∧
    isTokenExpired env now token B = true := by
  unfold getTokenExpiration isTokenExpired
  simp [hd, hexp, ClaimValue.truthy]

/-- C10 witness: a decoded payload with an exp claim equal to 0. -/
theorem exp_zero_treated_absent_witness :
    getTokenExpiration sampleEnv
      (TokenInput.decoded { claims := [("exp", ClaimValue.num 0)] }) = none ∧
    isTokenExpired sampleEnv 123
      (TokenInput.decoded { claims := [("exp", ClaimValue.num 0)] }) 7 = true :=
  exp_zero_treated_absent sampleEnv 123
    (TokenInput.decoded { claims := [("exp", ClaimValue.num 0)] }) 7
    { claims := [("exp", ClaimValue.num 0)] } rfl (by decide)

/-- C5: isTokenExpired is monotone in the buffer (expired at buffer B stays
expired at any larger buffer Bp), returns true on decode failure and on an
absent exp claim, and on a present nonzero numeric exp claim computes
exactly now >= exp - bufferSeconds; being a total function it never
throws. -/
theorem isTokenExpired_monotone_failsafe (env : JsEnv) (now : Int)
    (token : TokenInput) (B Bp : Int) :
    (B < Bp → isTokenExpired env now token B = true →
      isTokenExpired env now token Bp = true) ∧
    (decodeInput env token = none → isTokenExpired env now token B = true) ∧
    (∀ d, decodeInput env token = some d → assocGet d.claims "exp" = none →
      isTokenExpired env now token B = true) ∧
    (∀ d e, decodeInput env token = some d →
      assocGet d.claims "exp" = some (ClaimValue.num e) → e ≠ 0 →
      isTokenExpired env now token B = decide (now ≥ e - B)) := by
  refine ⟨?_, ?_, ?_, ?_⟩
  · intro hB h1
    unfold isTokenExpired at h1 ⊢
    cases hd : decodeInput env token with
    | none => simp
    | some d =>
      rw [hd] at h1
      simp only [hd]
      simp only at h1 ⊢
      cases he : assocGet d.claims "exp" with
      | none => simp [he]
      | some v =>
        rw [he] at h1
        simp only [he]
        simp only at h1 ⊢
        by_cases hv : v.truthy = false
        · rw [if_pos hv]
        · rw [if_neg hv] at h1 ⊢
          cases hn : v.toNumber with
          | none => rw [hn] at h1; simp at h1
          | some e =>
            rw [hn] at h1
            simp at h1 ⊢
            omega
  · intro h
    unfold isTokenExpired
    simp [h]
  · intro d hd2 he2
    unfold isTokenExpired
    simp [hd2, he2]
  · intro d e hd2 he2 hne
    unfold isTokenExpired
    simp only [hd2]
    simp only [he2]
    simp [ClaimValue.truthy, ClaimValue.toNumber, hne]

/-- C5 witness: a decoded payload expired at buffer 0 (exp 50 against now
100) is expired at the larger buffer 5. -/
theorem isTokenExpired_monotone_witness :
    isTokenExpired sampleEnv 100
      (TokenInput.decoded { claims := [("exp", ClaimValue.num 50)] }) 5 = true :=
  (isTokenExpired_monotone_failsafe sampleEnv 100
    (TokenInput.decoded { claims := [("exp", ClaimValue.num 50)] }) 0 5).1
    (by decide) (by decide)

/-- C6: for every stored token set and buffer, TokenManager.shouldRefresh
is true exactly when the time remaining on the access token is a number t
with 0 < t and t at most the buffer; a token whose time remaining is 0 (in
particular an already-expired one) never triggers refresh; and the default
buffer of shouldRefresh is 300 seconds. -/
theorem shouldRefresh_iff_window (env : JsEnv) (now : Int)
    (st : Option AuthTokens) (buffer : Int) :
    (managerShouldRefresh env now st buffer = true ↔
      ∃ t, managerGetTimeUntilExpiration env now st = some t ∧
        0 < t ∧ t ≤ buffer) ∧
    (managerGetTimeUntilExpiration env now st = some 0 →
      managerShouldRefresh env now st buffer = false) ∧
    managerShouldRefreshDefault env now st =
      managerShouldRefresh env now st 300 := by
  refine ⟨?_, ?_, rfl⟩
  · unfold managerShouldRefresh
    cases h : managerGetTimeUntilExpiration env now st with
    | none => simp
    | some t => simp
  · intro h
    unfold managerShouldRefresh
    rw [h]
    simp

/-- C6 witness: an access token that does not decode has time remaining 0
and does not trigger refresh at the default buffer of 300. -/
theorem shouldRefresh_witness :
    managerShouldRefresh sampleEnv 0
      (some { accessToken := "opaque-token", refreshToken := none,
              idToken := none, tokenType := "Bearer", expiresIn := 3600,
              scope := none, issuedAt := none }) 300 = false :=
  (shouldRefresh_iff_window sampleEnv 0
    (some { accessToken := "opaque-token", refreshToken := none,
            idToken := none, tokenType := "Bearer", expiresIn := 3600,
            scope := none, issuedAt := none }) 300).2.1 (by decide)

/-- C9: validateToken called with the empty options object returns true for
every token the decoder accepts, whatever its claims are (in particular an
exp in the past); the expiration check runs only when explicitly
requested. -/
theorem validateToken_empty_options_true (env : JsEnv) (now : Int)
    (token : String) (h : (decodeToken env token).isSome = true) :
    validateToken env now token emptyValidateOptions = true := by
  unfold validateToken
  cases hd : decodeToken env token with
  | none => rw [hd] at h; simp at h
  | some d => simp [emptyValidateOptions]

/-- C9 witness: a decodable three-segment token whose exp claim (1) is long
past still validates as true under empty options, while isTokenExpired
reports it expired. -/
theorem validateToken_empty_options_witness :
    isTokenExpired sampleEnv 1000 (TokenInput.raw "head.payload.sig") 0 = true ∧
    validateToken sampleEnv 1000 "head.payload.sig" emptyValidateOptions = true :=
  ⟨by decide,
   validateToken_empty_options_true sampleEnv 1000 "head.payload.sig" (by decide)⟩

/-- C2: when the callback carries no error parameter, a state nonce is
stored, and the callback state is missing or different from that nonce,
handleCallback fails with an invalid-state error, performs no HTTP
request, and leaves the session medium untouched: in particular the
pkce_verifier and oauth_state transients are not deleted on this failure
path. -/
theorem handleCallback_invalid_state_preserves_transients
    (cfg : AuthConfig) (f : Fetch) (p : CallbackParams) (ss : Medium)
    (nonce : String)
    (herr : p.error = none)
    (hstored : mediumGet ss "oauth_state" = some nonce)
    (hstate : p.state = none ∨ p.state ≠ some nonce) :
    handleCallback cfg f p ss =
      (JsOutcome.authErr { code := AuthErrorCode.INVALID_STATE,
                           message := "Invalid state parameter" }, ss, []) := by
  have hmm : stateMismatch p.state (mediumGet ss "oauth_state") = true := by
    rw [hstored]
    cases hps : p.state with
    | none => rfl
    | some s =>
      rcases hstate with h | h
      · rw [hps] at h; cases h
      · rw [hps] at h
        have hne : nonce ≠ s := fun hh => h (by rw [hh])
        simp [stateMismatch, hne]
  unfold handleCallback
  rw [herr]
  simp only [jsTruthyStr]
  rw [if_neg (by simp)]
  rw [if_pos hmm]

/-- C2 witness: a callback whose state is wrong-state while the stored
nonce is mock-state-123 fails with invalid-state and both transient
entries survive. -/
theorem handleCallback_invalid_state_witness :
    handleCallback sampleConfig (fun _ => Except.error "unreachable")
      { code := some "auth-code", state := some "wrong-state", error := none }
      [("oauth_state", "mock-state-123"), ("pkce_verifier", "test-verifier")] =
      (JsOutcome.authErr { code := AuthErrorCode.INVALID_STATE,
                           message := "Invalid state parameter" },
       [("oauth_state", "mock-state-123"), ("pkce_verifier", "test-verifier")],
       []) :=
  handleCallback_invalid_state_preserves_transients sampleConfig
    (fun _ => Except.error "unreachable")
    { code := some "auth-code", state := some "wrong-state", error := none }
    [("oauth_state", "mock-state-123"), ("pkce_verifier", "test-verifier")]
    "mock-state-123" rfl (by decide) (Or.inr (by decide))

/-- C3 counterexample: a successful refresh response that carries
refresh_token and token_type as present but empty strings.  The claim
predicts the returned set carries the responses values (empty strings);
the code instead keeps the old refresh token and defaults the token type
to Bearer, because its fallbacks test truthiness, not presence. -/
theorem refreshTokens_present_empty_field_cex :
    (refreshTokens sampleConfig
        (fun _ => Except.ok
          { ok := true, statusText := "OK",
            body := some [("access_token", ClaimValue.str "new-access"),
                          ("refresh_token", ClaimValue.str ""),
                          ("token_type", ClaimValue.str ""),
                          ("expires_in", ClaimValue.num 3600)] })
        "old-refresh").1 =
      JsOutcome.ok { accessToken := "new-access",
                     refreshToken := some "old-refresh",
                     idToken := none, tokenType := "Bearer",
                     expiresIn := 3600, scope := none, issuedAt := none } ∧
    (refreshTokens sampleConfig
        (fun _ => Except.ok
          { ok := true, statusText := "OK",
            body := some [("access_token", ClaimValue.str "new-access"),
                          ("refresh_token", ClaimValue.str ""),
                          ("token_type", ClaimValue.str ""),
                          ("expires_in", ClaimValue.num 3600)] })
        "old-refresh").1 ≠
      JsOutcome.ok { accessToken := "new-access",
                     refreshToken := some "",
                     idToken := none, tokenType := "",
                     expiresIn := 3600, scope := none, issuedAt := none } := by
  constructor <;> decide

/-- C3 (amended): for every nonempty refresh token and every 2xx response
with a parseable body, refreshTokens returns a token set whose
refreshToken is the response refresh_token when that field is present and
nonempty and the input token when the field is absent or empty, and whose
tokenType is the response token_type when present and nonempty and Bearer
otherwise. -/
theorem refreshTokens_rotation_defaults (cfg : AuthConfig) (rt : String)
    (resp : HttpResponse) (data : List (String × ClaimValue))
    (hrt : rt ≠ "") (hok : resp.ok = true) (hbody : resp.body = some data) :
    ∃ tk, (refreshTokens cfg (fun _ => Except.ok resp) rt).1 = JsOutcome.ok tk ∧
      (∀ s, getStr data "refresh_token" = some s → s ≠ "" →
        tk.refreshToken = some s) ∧
      ((getStr data "refresh_token" = none ∨
        getStr data "refresh_token" = some "") → tk.refreshToken = some rt) ∧
      (∀ s, getStr data "token_type" = some s → s ≠ "" → tk.tokenType = s) ∧
      ((getStr data "token_type" = none ∨ getStr data "token_type" = some "") →
        tk.tokenType = "Bearer") := by
  have hred : (refreshTokens cfg (fun _ => Except.ok resp) rt).1 =
      JsOutcome.ok
        { accessToken := (getStr data "access_token").getD "",
          refreshToken := some (jsStrOr (getStr data "refresh_token") rt),
          idToken := none,
          tokenType := jsStrOr (getStr data "token_type") "Bearer",
          expiresIn := (getNum data "expires_in").getD 0,
          scope := getStr data "scope",
          issuedAt := none } := by
    unfold refreshTokens
    rw [if_neg hrt]
    simp [hok, hbody]
  refine ⟨_, hred, ?_, ?_, ?_, ?_⟩
  · intro s hs hne
    simp [hs, jsStrOr, hne]
  · intro h
    rcases h with h | h <;> simp [h, jsStrOr]
  · intro s hs hne
    simp [hs, jsStrOr, hne]
  · intro h
    rcases h with h | h <;> simp [h, jsStrOr]

/-- C3 witness: a 2xx refresh response that rotates the refresh token and
omits token_type; the returned set adopts the rotated token and defaults
the type to Bearer. -/
theorem refreshTokens_rotation_witness :
    ∃ tk, (refreshTokens sampleConfig
        (fun _ => Except.ok
          { ok := true, statusText := "OK",
            body := some [("access_token", ClaimValue.str "new-access"),
                          ("refresh_token", ClaimValue.str "rotated"),
                          ("expires_in", ClaimValue.num 3600)] })
        "old-refresh").1 = JsOutcome.ok tk ∧
      (∀ s, getStr [("access_token", ClaimValue.str "new-access"),
                    ("refresh_token", ClaimValue.str "rotated"),
                    ("expires_in", ClaimValue.num 3600)] "refresh_token" = some s →
        s ≠ "" → tk.refreshToken = some s) ∧
      ((getStr [("access_token", ClaimValue.str "new-access"),
                ("refresh_token", ClaimValue.str "rotated"),
                ("expires_in", ClaimValue.num 3600)] "refresh_token" = none ∨
        getStr [("access_token", ClaimValue.str "new-access"),
                ("refresh_token", ClaimValue.str "rotated"),
                ("expires_in", ClaimValue.num 3600)] "refresh_token" = some "") →
        tk.refreshToken = some "old-refresh") ∧
      (∀ s, getStr [("access_token", ClaimValue.str "new-access"),
                    ("refresh_token", ClaimValue.str "rotated"),
                    ("expires_in", ClaimValue.num 3600)] "token_type" = some s →
        s ≠ "" → tk.tokenType = s) ∧
      ((getStr [("access_token", ClaimValue.str "new-access"),
                ("refresh_token", ClaimValue.str "rotated"),
                ("expires_in", ClaimValue.num 3600)] "token_type" = none ∨
        getStr [("access_token", ClaimValue.str "new-access"),
                ("refresh_token", ClaimValue.str "rotated"),
                ("expires_in", ClaimValue.num 3600)] "token_type" = some "") →
        tk.tokenType = "Bearer") :=
  refreshTokens_rotation_defaults sampleConfig "old-refresh"
    { ok := true, statusText := "OK",
      body := some [("access_token", ClaimValue.str "new-access"),
                    ("refresh_token", ClaimValue.str "rotated"),
                    ("expires_in", ClaimValue.num 3600)] }
    [("access_token", ClaimValue.str "new-access"),
     ("refresh_token", ClaimValue.str "rotated"),
     ("expires_in", ClaimValue.num 3600)]
    (by decide) rfl rfl

/-- Spec-side view of the record a store must hold after setTokens: every
field of the input unchanged except issuedAt, which carries the store
write time. -/
def stampedView (t : AuthTokens) (now : Int) : AuthTokens :=
  { accessToken := t.accessToken, refreshToken := t.refreshToken,
    idToken := t.idToken, tokenType := t.tokenType,
    expiresIn := t.expiresIn, scope := t.scope, issuedAt := some now }

/-- Sample JSON codec for the web storage adapters, valid at the one record
the witness stores. -/
def sampleCodec : JsonCodec :=
  { stringify := fun _ => "serialized",
    parse := fun _ => some (stampedView sampleTokens 5) }

/-- C7: across the three storage variants, setTokens stores the input with
issuedAt overwritten by the current wall-clock time and every other field
unchanged, and getTokens hands back an independent copy: writing any value
through the returned reference leaves what a later getTokens observes
untouched.  For the web adapters the codec is assumed to round-trip the
stored record and to serialize it to a nonempty string. -/
theorem tokenStores_stamp_and_copy (codec : JsonCodec) (key : String)
    (h : Heap) (m : Medium) (t mutated : AuthTokens) (now : Int)
    (hparse : codec.parse (codec.stringify (stampedView t now)) =
      some (stampedView t now))
    (hnonempty : codec.stringify (stampedView t now) ≠ "") :
    ((memSetTokens h now t).2.bind (heapGet (memSetTokens h now t).1) =
        some (stampedView t now) ∧
     memObserve (memSetTokens h now t).1 (memSetTokens h now t).2 =
        some (stampedView t now) ∧
     (∀ b, (memGetTokens (memSetTokens h now t).1 (memSetTokens h now t).2).2 =
        some b →
       memObserve
         (heapSet (memGetTokens (memSetTokens h now t).1
            (memSetTokens h now t).2).1 b mutated)
         (memSetTokens h now t).2 = some (stampedView t now))) ∧
    (mediumGet (sessionSetTokens codec key m now t) key =
        some (codec.stringify (stampedView t now)) ∧
     webObserve codec key h (sessionSetTokens codec key m now t) =
        some (stampedView t now) ∧
     (∀ hh r, sessionGetTokens codec key h (sessionSetTokens codec key m now t) =
        (hh, sessionSetTokens codec key m now t, some r) →
       webObserve codec key (heapSet hh r mutated)
         (sessionSetTokens codec key m now t) = some (stampedView t now))) ∧
    (mediumGet (localSetTokens codec key m now t) key =
        some (codec.stringify (stampedView t now)) ∧
     webObserve codec key h (localSetTokens codec key m now t) =
        some (stampedView t now) ∧
     (∀ hh r, localGetTokens codec key h (localSetTokens codec key m now t) =
        (hh, localSetTokens codec key m now t, some r) →
       webObserve codec key (heapSet hh r mutated)
         (localSetTokens codec key m now t) = some (stampedView t now))) := by
  have hset1 : (memSetTokens h now t).1 = h ++ [stampedView t now] := rfl
  have hset2 : (memSetTokens h now t).2 = some h.length := rfl
  have hga : heapGet (h ++ [stampedView t now]) h.length =
      some (stampedView t now) := heapGet_alloc_self h _
  have hwobs : ∀ hp : Heap,
      webObserve codec key hp (webSetTokens codec key m now t) =
        some (stampedView t now) := by
    intro hp
    unfold webObserve webGetTokens webSetTokens
    rw [show (mediumGet
          (mediumSet m key (codec.stringify { t with issuedAt := some now })) key)
        = some (codec.stringify (stampedView t now)) from mediumGet_set_self m key _]
    simp only [hnonempty, if_false, hparse, heapAlloc]
    simp [heapGet_alloc_self]
  have hwmed : mediumGet (webSetTokens codec key m now t) key =
      some (codec.stringify (stampedView t now)) := mediumGet_set_self m key _
  refine ⟨⟨?_, ?_, ?_⟩, ⟨hwmed, hwobs h, fun hh r _ => hwobs _⟩,
         ⟨hwmed, hwobs h, fun hh r _ => hwobs _⟩⟩
  · rw [hset1, hset2]
    simp only [Option.some_bind]
    exact hga
  · unfold memObserve
    rw [hset1, hset2]
    simp only [memGetTokens, hga, heapAlloc]
    have h2 := heapGet_alloc_self (h ++ [stampedView t now]) (stampedView t now)
    simp at h2 ⊢
    exact h2
  · intro b hb
    rw [hset1, hset2] at hb ⊢
    have hcomp : (memGetTokens (h ++ [stampedView t now]) (some h.length)).2 =
        some ((h ++ [stampedView t now]).length) := by
      simp only [memGetTokens, hga, heapAlloc]
    rw [hcomp] at hb
    have hb2 : b = (h ++ [stampedView t now]).length := by
      exact (Option.some.injEq _ _).mp hb |>.symm
    have hcomp1 : (memGetTokens (h ++ [stampedView t now]) (some h.length)).1 =
        (h ++ [stampedView t now]) ++ [stampedView t now] := by
      simp only [memGetTokens, hga, heapAlloc]
    rw [hcomp1]
    have hlt : h.length < (h ++ [stampedView t now]).length := by
      simp
    have hne : h.length ≠ b := by
      rw [hb2]
      omega
    unfold memObserve
    simp only [memGetTokens]
    rw [heapGet_set_ne _ _ _ _ hne]
    rw [heapGet_alloc_lt _ _ _ hlt, hga]
    simp only [heapAlloc]
    have h2 := heapGet_alloc_self
      (heapSet ((h ++ [stampedView t now]) ++ [stampedView t now]) b mutated)
      (stampedView t now)
    simp at h2 ⊢
    exact h2

/-- C7 witness: storing a sample record (whose caller-supplied issuedAt is
1) at time 5 in a fresh memory store and a fresh session store; both
getTokens observations carry issuedAt 5 and all other fields unchanged. -/
theorem tokenStores_stamp_and_copy_witness :
    memObserve (memSetTokens [] 5 sampleTokens).1 (memSetTokens [] 5 sampleTokens).2 =
      some (stampedView sampleTokens 5) ∧
    webObserve sampleCodec "k" [] (sessionSetTokens sampleCodec "k" [] 5 sampleTokens) =
      some (stampedView sampleTokens 5) :=
  ⟨(tokenStores_stamp_and_copy sampleCodec "k" [] [] sampleTokens sampleTokens 5
      rfl (by decide)).1.2.1,
   (tokenStores_stamp_and_copy sampleCodec "k" [] [] sampleTokens sampleTokens 5
      rfl (by decide)).2.1.2.1⟩
